import Mathlib

/-!
Verification development for the Art-Net to Home Assistant bridge.

Shallow embedding of the repository's core logic:
- `parse_artnet_packet`, `deliver_frame`, `get_channels` embed
  `artnet_receiver.py` (frame decoding, change-gated callback delivery,
  channel snapshots);
- `detect_entity_type`, `assignOne`, `auto_assign_channels`,
  `update_mapping`, `get_entity_commands` embed `entity_mapper.py`;
- `process_command` embeds the per-command throttling loop body of
  `bridge_controller.py`.

Byte values are modelled as `Nat` (all frame values originate from Python
`bytes`, hence lie in 0..255); Python dictionaries are modelled as
insertion-ordered association lists; wall-clock times are modelled as `ℚ`.
-/

set_option maxRecDepth 100000

namespace ArtnetHA

/-- Python dict read: first binding of the key, `None` when absent.
Models `d.get(k)` / `k in d` / `d[k]` on dicts with unique keys. -/
def dictGet {α β : Type} [DecidableEq α] : List (α × β) → α → Option β
  | [], _ => none
  | (k, v) :: rest, key => if k = key then some v else dictGet rest key

/-- Python dict assignment `d[k] = v`: replaces the existing binding in
place (insertion order preserved), appends a fresh binding otherwise. -/
def dictSet {α β : Type} [DecidableEq α] : List (α × β) → α → β → List (α × β)
  | [], key, v => [(key, v)]
  | (k, w) :: rest, key, v =>
    if k = key then (key, v) :: rest else (k, w) :: dictSet rest key v

/-! ## artnet_receiver.py -/

/-- The fixed protocol signature `b'Art-Net\x00'` (artnet_receiver.py line 17). -/
def ARTNET_HEADER : List Nat := [65, 114, 116, 45, 78, 101, 116, 0]

/-- The channel-data opcode constant `0x5000` (artnet_receiver.py line 18). -/
def ARTNET_DMX : Nat := 0x5000

/-- The zero-padding loop of `_parse_artnet_packet` (lines 119-120):
`while len(new_dmx_data) < 512: new_dmx_data.append(0)`.  When the list is
already 512 long or longer the loop body never runs (`Nat` subtraction
yields an empty padding). -/
def padTo512 (l : List Nat) : List Nat := l ++ List.replicate (512 - l.length) 0

/-- `_parse_artnet_packet` (artnet_receiver.py lines 80-121), up to and
including the construction of `new_dmx_data`: header-length check,
signature check, little-endian opcode check, big-endian universe check
(low byte at offset 14, high at 15), big-endian length field at offset 16,
payload-fully-present check, then payload extraction plus zero padding.
The parsed-but-unused version/sequence/physical fields (lines 95-97) have
no effect and are not modelled.  `none` is "not applicable". -/
def parse_artnet_packet (univ : Nat) (data : List Nat) : Option (List Nat) :=
  if data.length < 18 then none
  else if data.take 8 ≠ ARTNET_HEADER then none
  else if data.getD 8 0 + data.getD 9 0 * 256 ≠ ARTNET_DMX then none
  else if data.getD 14 0 + data.getD 15 0 * 256 ≠ univ then none
  else
    let len := data.getD 16 0 * 256 + data.getD 17 0
    if data.length < 18 + len then none
    else some (padTo512 ((data.drop 18).take len))

/-- `parse_artnet_packet` with the local `len` inlined: the big-endian
length field read at offsets 16 and 17. -/
theorem parse_artnet_packet_def (univ : Nat) (data : List Nat) :
    parse_artnet_packet univ data =
      if data.length < 18 then none
      else if data.take 8 ≠ ARTNET_HEADER then none
      else if data.getD 8 0 + data.getD 9 0 * 256 ≠ ARTNET_DMX then none
      else if data.getD 14 0 + data.getD 15 0 * 256 ≠ univ then none
      else if data.length < 18 + (data.getD 16 0 * 256 + data.getD 17 0) then
        none
      else
        some (padTo512
          ((data.drop 18).take (data.getD 16 0 * 256 + data.getD 17 0))) :=
  rfl

/-- Receiver state relevant to frame delivery: the stored last frame
(`self.dmx_data`) and how many times the registered callback has fired. -/
structure ReceiverState where
  dmx_data : List Nat
  callback_count : Nat
deriving DecidableEq

/-- Initial receiver state: `self.dmx_data = [0] * 512` (line 35), no
callback invocations yet. -/
def initReceiver : ReceiverState := ⟨List.replicate 512 0, 0⟩

/-- The change-gated delivery tail of `_parse_artnet_packet` (lines
122-134): if the decoded frame differs from the stored one, replace the
stored frame and invoke the callback once; otherwise do nothing. -/
def deliver_frame (st : ReceiverState) (frame : List Nat) : ReceiverState :=
  if frame ≠ st.dmx_data then ⟨frame, st.callback_count + 1⟩ else st

/-- `get_channels` (artnet_receiver.py lines 150-164): reject a start
outside 1..512, otherwise return the slice
`dmx_data[start-1 : min(start+count, 512)]`. -/
def get_channels (dmx_data : List Nat) (start count : Nat) : List Nat :=
  if start < 1 ∨ start > 512 then []
  else (dmx_data.drop (start - 1)).take (min (start + count) 512 - (start - 1))

/-! ## entity_mapper.py -/

/-- `EntityType` (entity_mapper.py lines 14-22). -/
inductive EntityType where
  | SWITCH
  | DIMMER
  | RGB
  | RGBW
  | RGBWW
  | COLOR_TEMP
  | UNKNOWN
deriving DecidableEq

/-- `EntityMapping` (entity_mapper.py lines 25-36): `name` defaults to the
empty string and `rgb_channels` to the empty list (`__post_init__`). -/
structure EntityMapping where
  entity_id : String
  entity_type : EntityType
  dmx_channel : Nat
  name : String := ""
  rgb_channels : List Nat := []
deriving DecidableEq

/-- The forward map `self.mappings`: a Python dict from entity id to
mapping, modelled as an insertion-ordered association list. -/
abbrev Mappings := List (String × EntityMapping)

/-- The slice of a Home Assistant entity-state dictionary that
`detect_entity_type` and `auto_assign_channels` read: the entity id, the
`supported_color_modes` attribute (defaulting to the empty list), whether
a `brightness` attribute is present, and the optional `friendly_name`
attribute. -/
structure EntityState where
  entity_id : String
  supported_color_modes : List String
  has_brightness_attr : Bool
  friendly_name : Option String

/-- `SWITCH_THRESHOLD = 125` (entity_mapper.py line 58). -/
def SWITCH_THRESHOLD : Nat := 125

/-- Characters of a string up to (excluding) the first dot: the
`entity_id.split('.')[0]` domain extraction of `detect_entity_type`. -/
def takeUntilDot : List Char → List Char
  | [] => []
  | c :: rest => if c = '.' then [] else c :: takeUntilDot rest

/-- The entity id's domain: its text before the first dot (the whole id
when it contains no dot). -/
def domainOf (s : String) : String := String.mk (takeUntilDot s.data)

/-- `detect_entity_type` (entity_mapper.py lines 110-146): the domain is
the entity id's text before the first dot; `switch` domain is Switch;
`light` domain is classified by color-mode capability with a brightness
fallback; everything else is Unknown. -/
def detect_entity_type (s : EntityState) : EntityType :=
  if domainOf s.entity_id = "switch" then .SWITCH
  else if domainOf s.entity_id = "light" then
    if s.supported_color_modes.contains "rgbw" ∨
        s.supported_color_modes.contains "rgbww" then .RGBW
    else if s.supported_color_modes.contains "rgb" ∨
        s.supported_color_modes.contains "hs" then .RGB
    else if s.supported_color_modes.contains "brightness" then .DIMMER
    else if s.has_brightness_attr then .DIMMER
    else .SWITCH
  else .UNKNOWN

/-- The per-entity body of the `auto_assign_channels` loop
(entity_mapper.py lines 166-198): the branch on the detected entity type
that builds the new mapping at the allocation cursor and advances the
cursor.  RGB takes four consecutive channels, RGBW five; every other type
(RGBWW included, which has no branch of its own) takes one channel with no
auxiliary channels. -/
def assignOne (entity_id nm : String) (entity_type : EntityType)
    (current_channel : Nat) : EntityMapping × Nat :=
  if entity_type = .RGB then
    ({ entity_id := entity_id, entity_type := entity_type,
       dmx_channel := current_channel, name := nm,
       rgb_channels :=
         [current_channel + 1, current_channel + 2, current_channel + 3] },
     current_channel + 4)
  else if entity_type = .RGBW then
    ({ entity_id := entity_id, entity_type := entity_type,
       dmx_channel := current_channel, name := nm,
       rgb_channels :=
         [current_channel + 1, current_channel + 2, current_channel + 3,
          current_channel + 4] },
     current_channel + 5)
  else
    ({ entity_id := entity_id, entity_type := entity_type,
       dmx_channel := current_channel, name := nm, rgb_channels := [] },
     current_channel + 1)

/-- `auto_assign_channels` (entity_mapper.py lines 148-204): walk the
discovered entities in order with an allocation cursor, skipping entities
already present in the table and appending a fresh mapping (the key is
new, so dict assignment appends) for each new one.  The reverse-index
rebuild and the save to disk at the end carry no information about the
forward map and are not modelled. -/
def auto_assign_channels : Mappings → List EntityState → Nat → Mappings
  | m, [], _ => m
  | m, e :: rest, cur =>
    if (dictGet m e.entity_id).isSome then auto_assign_channels m rest cur
    else
      auto_assign_channels
        (m ++ [(e.entity_id,
          (assignOne e.entity_id (e.friendly_name.getD e.entity_id)
            (detect_entity_type e) cur).1)])
        rest
        (assignOne e.entity_id (e.friendly_name.getD e.entity_id)
          (detect_entity_type e) cur).2

/-- Auxiliary-channel recomputation for an existing mapping after its
primary channel moved (`update_mapping`, entity_mapper.py lines 220-226
and 230-238): RGB gets three consecutive channels after the primary, RGBW
four, RGBWW five; in the typed variant (the `if entity_type:` block) any
other type clears the list, while the untyped variant leaves it alone. -/
def rgbChannelsFor (t : EntityType) (dmx_channel : Nat) : Option (List Nat) :=
  if t = .RGB then some [dmx_channel + 1, dmx_channel + 2, dmx_channel + 3]
  else if t = .RGBW then
    some [dmx_channel + 1, dmx_channel + 2, dmx_channel + 3, dmx_channel + 4]
  else if t = .RGBWW then
    some [dmx_channel + 1, dmx_channel + 2, dmx_channel + 3, dmx_channel + 4,
      dmx_channel + 5]
  else none

/-- `update_mapping` (entity_mapper.py lines 206-248).  For an existing
entity: move the primary channel, recompute the auxiliary channels from
the (old) type, then — only when a type override is supplied — install the
new type and recompute again, clearing the auxiliary channels when the new
type needs none.  For a new entity: create a mapping with the given
channel, the supplied type (Unknown when absent), the default empty name
and, in every case, no auxiliary channels. -/
def update_mapping (m : Mappings) (entity_id : String) (dmx_channel : Nat)
    (entity_type : Option EntityType) : Mappings :=
  match dictGet m entity_id with
  | some mp0 =>
    let mp1 := { mp0 with dmx_channel := dmx_channel }
    let mp2 := match rgbChannelsFor mp1.entity_type dmx_channel with
      | some chans => { mp1 with rgb_channels := chans }
      | none => mp1
    let mp3 := match entity_type with
      | some t =>
        let mpT := { mp2 with entity_type := t }
        match rgbChannelsFor t dmx_channel with
        | some chans => { mpT with rgb_channels := chans }
        | none => { mpT with rgb_channels := [] }
      | none => mp2
    dictSet m entity_id mp3
  | none =>
    m ++ [(entity_id,
      { entity_id := entity_id, entity_type := entity_type.getD .UNKNOWN,
        dmx_channel := dmx_channel })]

/-- A Home Assistant command dictionary as built by `get_entity_commands`:
always `entity_id` and `action`, plus whichever optional keys the branch
adds. -/
structure Command where
  entity_id : String
  action : String
  brightness : Option Nat := none
  rgb_color : Option (List Nat) := none
  rgbw_color : Option (List Nat) := none
  rgbww_color : Option (List Nat) := none
  kelvin : Option Nat := none
deriving DecidableEq

/-- `dmx_to_ha_switch` (entity_mapper.py lines 261-271):
`dmx_value > SWITCH_THRESHOLD`. -/
def dmx_to_ha_switch (dmx_value : Nat) : Bool := SWITCH_THRESHOLD < dmx_value

/-- `dmx_to_ha_brightness` (entity_mapper.py lines 273-283): identity. -/
def dmx_to_ha_brightness (dmx_value : Nat) : Nat := dmx_value

/-- The color-temperature kelvin computation of `get_entity_commands`
(entity_mapper.py line 338): `int(2000 + (dmx_value / 255.0) * 4500)`.
For every byte value 0..255 the Python double computation lands strictly
between consecutive integers exactly as the exact rational does, so the
`int(...)` truncation equals this natural-number floor division. -/
def kelvin_of (dmx_value : Nat) : Nat := 2000 + dmx_value * 4500 / 255

/-- The RGB/RGBW/RGBWW branch of `get_entity_commands` (entity_mapper.py
lines 351-386): with fewer than three configured auxiliary channels
nothing at all is emitted; otherwise the first three auxiliary channels
are read (absent channels default to 0), a zero master value emits
deactivate, and a positive one emits activate with a color payload chosen
by type and configured-channel count, falling back to an `rgb_color`
payload when the RGBW/RGBWW channel-count guard fails. -/
def color_command (dmx : List (Nat × Nat)) (mp : EntityMapping) (v : Nat) :
    List Command :=
  if 3 ≤ mp.rgb_channels.length then
    if 0 < dmx_to_ha_brightness v then
      if mp.entity_type = .RGBW ∧ 4 ≤ mp.rgb_channels.length then
        [{ entity_id := mp.entity_id, action := "turn_on",
           brightness := some (dmx_to_ha_brightness v),
           rgbw_color := some
             [(dictGet dmx (mp.rgb_channels.getD 0 0)).getD 0,
              (dictGet dmx (mp.rgb_channels.getD 1 0)).getD 0,
              (dictGet dmx (mp.rgb_channels.getD 2 0)).getD 0,
              (dictGet dmx (mp.rgb_channels.getD 3 0)).getD 0] }]
      else if mp.entity_type = .RGBWW ∧ 5 ≤ mp.rgb_channels.length then
        [{ entity_id := mp.entity_id, action := "turn_on",
           brightness := some (dmx_to_ha_brightness v),
           rgbww_color := some
             [(dictGet dmx (mp.rgb_channels.getD 0 0)).getD 0,
              (dictGet dmx (mp.rgb_channels.getD 1 0)).getD 0,
              (dictGet dmx (mp.rgb_channels.getD 2 0)).getD 0,
              (dictGet dmx (mp.rgb_channels.getD 3 0)).getD 0,
              (dictGet dmx (mp.rgb_channels.getD 4 0)).getD 0] }]
      else
        [{ entity_id := mp.entity_id, action := "turn_on",
           brightness := some (dmx_to_ha_brightness v),
           rgb_color := some
             [(dictGet dmx (mp.rgb_channels.getD 0 0)).getD 0,
              (dictGet dmx (mp.rgb_channels.getD 1 0)).getD 0,
              (dictGet dmx (mp.rgb_channels.getD 2 0)).getD 0] }]
    else [{ entity_id := mp.entity_id, action := "turn_off" }]
  else []

/-- The per-type `if/elif` chain of `get_entity_commands` (entity_mapper.py
lines 310-386), given the primary-channel value `v`: the zero or one
commands the branch appends. -/
def entity_command (dmx : List (Nat × Nat)) (mp : EntityMapping) (v : Nat) :
    List Command :=
  match mp.entity_type with
  | .SWITCH =>
    [{ entity_id := mp.entity_id,
       action := if dmx_to_ha_switch v then "turn_on" else "turn_off" }]
  | .DIMMER =>
    if 0 < dmx_to_ha_brightness v then
      [{ entity_id := mp.entity_id, action := "turn_on",
         brightness := some (dmx_to_ha_brightness v) }]
    else [{ entity_id := mp.entity_id, action := "turn_off" }]
  | .COLOR_TEMP =>
    if 0 < dmx_to_ha_brightness v then
      [{ entity_id := mp.entity_id, action := "turn_on",
         brightness := some (dmx_to_ha_brightness v),
         kelvin := some (kelvin_of v) }]
    else [{ entity_id := mp.entity_id, action := "turn_off" }]
  | .RGB => color_command dmx mp v
  | .RGBW => color_command dmx mp v
  | .RGBWW => color_command dmx mp v
  | .UNKNOWN => []

/-- The loop of `get_entity_commands` (entity_mapper.py lines 295-390)
over the table's mappings in order, with the `processed_entities` set:
an already-processed entity id is skipped, a mapping whose primary channel
is absent from the frame is skipped without marking the id processed, and
otherwise the per-type branch runs and the id is marked processed. -/
def commands_go (dmx : List (Nat × Nat)) :
    List EntityMapping → List String → List Command
  | [], _ => []
  | mp :: rest, processed =>
    if processed.contains mp.entity_id then commands_go dmx rest processed
    else
      match dictGet dmx mp.dmx_channel with
      | none => commands_go dmx rest processed
      | some v =>
        entity_command dmx mp v ++
          commands_go dmx rest (mp.entity_id :: processed)

/-- `get_entity_commands` (entity_mapper.py lines 285-390): one pass over
`self.mappings.values()` in insertion order. -/
def get_entity_commands (m : Mappings) (dmx : List (Nat × Nat)) :
    List Command :=
  commands_go dmx (m.map Prod.snd) []

/-! ## bridge_controller.py -/

/-- `min_command_interval = 0.05` seconds (bridge_controller.py line 30). -/
def min_command_interval : ℚ := 1 / 20

/-- Outcome of one iteration of the dispatch loop for one command. -/
inductive DispatchResult where
  | sent
  | suppressed
  | failed
deriving DecidableEq

/-- The per-command body of the `_process_dmx_data` dispatch loop
(bridge_controller.py lines 148-183), with `now` the pass-captured
`current_time` and `ok` whether the Home Assistant call succeeds: a
command is suppressed when less than `min_command_interval` has elapsed
since the stored timestamp (default 0); otherwise the call is attempted,
and only a successful call stores `now` as the device's timestamp (an
exception skips the timestamp update and is swallowed). -/
def process_command (ok : Bool) (now : ℚ) (lt : List (String × ℚ))
    (entity_id : String) : DispatchResult × List (String × ℚ) :=
  if now - (dictGet lt entity_id).getD 0 < min_command_interval then
    (.suppressed, lt)
  else if ok then (.sent, dictSet lt entity_id now)
  else (.failed, lt)

/-! ## Claim theorems -/

/-- A syntactically valid channel-data datagram for universe 0 whose
declared payload is 513 bytes (length field bytes 2,1), all present:
8 signature bytes, opcode bytes (0x5000 little-endian), protocol version,
sequence, physical, universe bytes 0,0, length bytes 2,1, then 513
payload bytes of value 7. -/
def oversizedPacket : List Nat :=
  ARTNET_HEADER ++ [0, 80, 0, 14, 0, 0, 0, 0, 2, 1] ++ List.replicate 513 7

/-- C1 counterexample: the decoder accepts a datagram whose declared
payload is 513 bytes and produces a frame with 513 slots, not 512 — the
payload is not truncated. -/
theorem c1_counterexample :
    (parse_artnet_packet 0 oversizedPacket).map List.length = some 513 ∧
    (513 : Nat) ≠ 512 := by
  constructor
  · decide
  · decide

/-- C1 (amended): every accepted datagram yields the declared payload
bytes in order, zero-padded on the right up to 512 slots when the payload
is shorter than 512; a payload longer than 512 is kept whole, so the frame
has `max 512 L` slots where `L` is the declared payload length (truncation
to 512 does not happen). -/
theorem c1_accepted_frame_shape (univ : Nat) (data frame : List Nat)
    (h : parse_artnet_packet univ data = some frame) :
    frame = (data.drop 18).take (data.getD 16 0 * 256 + data.getD 17 0) ++
      List.replicate (512 - (data.getD 16 0 * 256 + data.getD 17 0)) 0 ∧
    frame.length = max 512 (data.getD 16 0 * 256 + data.getD 17 0) := by
  rw [parse_artnet_packet_def] at h
  split_ifs at h with h1 h2 h3 h4 h5
  injection h with h
  subst h
  have hlen :
      ((data.drop 18).take (data.getD 16 0 * 256 + data.getD 17 0)).length
        = data.getD 16 0 * 256 + data.getD 17 0 := by
    rw [List.length_take, List.length_drop]
    omega
  refine ⟨by rw [padTo512, hlen], ?_⟩
  rw [padTo512, List.length_append, List.length_replicate, hlen]
  omega

/-- A valid channel-data datagram for universe 0 with a 2-byte payload
`[9, 8]` (length field bytes 0,2). -/
def smallPacket : List Nat :=
  ARTNET_HEADER ++ [0, 80, 0, 14, 0, 0, 0, 0, 0, 2, 9, 8]

/-- The frame the decoder produces for `smallPacket`. -/
def smallFrame : List Nat := [9, 8] ++ List.replicate 510 0

/-- C1 witness: `c1_accepted_frame_shape` at the concrete accepted
datagram `smallPacket`. -/
theorem c1_witness :
    smallFrame = (smallPacket.drop 18).take
        (smallPacket.getD 16 0 * 256 + smallPacket.getD 17 0) ++
      List.replicate
        (512 - (smallPacket.getD 16 0 * 256 + smallPacket.getD 17 0)) 0 ∧
    smallFrame.length
      = max 512 (smallPacket.getD 16 0 * 256 + smallPacket.getD 17 0) :=
  c1_accepted_frame_shape 0 smallPacket smallFrame (by decide)

/-- C3: delivering two consecutive frames that each differ from the frame
before them fires the callback exactly twice; redelivering the same frame
fires it exactly once; in general one delivery fires the callback exactly
once when the frame differs from the stored last frame and never when it
is equal to it. -/
theorem c3_callback_per_changed_frame (st : ReceiverState) (f1 f2 : List Nat)
    (h1 : f1 ≠ st.dmx_data) (h2 : f2 ≠ f1) :
    (deliver_frame (deliver_frame st f1) f2).callback_count
        = st.callback_count + 2 ∧
    (deliver_frame (deliver_frame st f1) f1).callback_count
        = st.callback_count + 1 ∧
    ∀ (s : ReceiverState) (f : List Nat),
      (deliver_frame s f).callback_count
        = s.callback_count + (if f = s.dmx_data then 0 else 1) := by
  refine ⟨?_, ?_, ?_⟩
  · simp [deliver_frame, h1, h2]
  · simp [deliver_frame, h1]
  · intro s f
    by_cases hf : f = s.dmx_data <;> simp [deliver_frame, hf]

/-- An all-ones 512-slot frame. -/
def frameA : List Nat := List.replicate 512 1

/-- An all-twos 512-slot frame. -/
def frameB : List Nat := List.replicate 512 2

/-- C3 witness: `c3_callback_per_changed_frame` from the initial receiver
state with two concrete distinct frames. -/
theorem c3_witness :
    (deliver_frame (deliver_frame initReceiver frameA) frameB).callback_count
        = initReceiver.callback_count + 2 ∧
    (deliver_frame (deliver_frame initReceiver frameA) frameA).callback_count
        = initReceiver.callback_count + 1 ∧
    ∀ (s : ReceiverState) (f : List Nat),
      (deliver_frame s f).callback_count
        = s.callback_count + (if f = s.dmx_data then 0 else 1) :=
  c3_callback_per_changed_frame initReceiver frameA frameB (by decide)
    (by decide)

/-- C10: for a stored 512-slot frame and a start channel in 1..512,
`get_channels start count` returns `min (count+1) (513-start)` values —
the stored values of channels `start` through `min (start+count) 512`
inclusive, the i-th returned value being the value of channel `start+i`. -/
theorem c10_get_channels_window (dmx : List Nat) (start count : Nat)
    (hlen : dmx.length = 512) (h1 : 1 ≤ start) (h2 : start ≤ 512) :
    (get_channels dmx start count).length = min (count + 1) (513 - start) ∧
    ∀ i, i < (get_channels dmx start count).length →
      (get_channels dmx start count).getD i 0 = dmx.getD (start - 1 + i) 0 := by
  have hcond : ¬ (start < 1 ∨ start > 512) := by omega
  have hg : get_channels dmx start count
      = (dmx.drop (start - 1)).take (min (start + count) 512 - (start - 1)) := by
    simp only [get_channels, if_neg hcond]
  constructor
  · rw [hg, List.length_take, List.length_drop, hlen]
    omega
  · intro i hi
    rw [hg] at hi ⊢
    have hit : i < min (start + count) 512 - (start - 1) := by
      rw [List.length_take] at hi
      omega
    rw [List.getD_eq_getElem?_getD, List.getElem?_take, if_pos hit,
      List.getElem?_drop, List.getD_eq_getElem?_getD]

/-- C10 witness: `c10_get_channels_window` on a concrete 512-slot frame
with start channel 5 and count 10. -/
theorem c10_witness :
    (get_channels frameA 5 10).length = min (10 + 1) (513 - 5) ∧
    ∀ i, i < (get_channels frameA 5 10).length →
      (get_channels frameA 5 10).getD i 0 = frameA.getD (5 - 1 + i) 0 :=
  c10_get_channels_window frameA 5 10 (by decide) (by decide) (by decide)

/-- Lookup in a concatenation when the key is bound on the left. -/
theorem dictGet_append_of_isSome {α β : Type} [DecidableEq α]
    (l1 l2 : List (α × β)) (k : α) (h : (dictGet l1 k).isSome) :
    dictGet (l1 ++ l2) k = dictGet l1 k := by
  induction l1 with
  | nil => simp [dictGet] at h
  | cons p rest ih =>
    obtain ⟨a, b⟩ := p
    by_cases hk : a = k
    · simp [dictGet, hk]
    · simp only [dictGet, if_neg hk] at h
      simp only [List.cons_append, dictGet, if_neg hk]
      exact ih h

/-- Lookup in a concatenation when the key is unbound on the left. -/
theorem dictGet_append_of_none {α β : Type} [DecidableEq α]
    (l1 l2 : List (α × β)) (k : α) (h : dictGet l1 k = none) :
    dictGet (l1 ++ l2) k = dictGet l2 k := by
  induction l1 with
  | nil => simp
  | cons p rest ih =>
    obtain ⟨a, b⟩ := p
    by_cases hk : a = k
    · simp [dictGet, hk] at h
    · simp only [dictGet, if_neg hk] at h
      simp only [List.cons_append, dictGet, if_neg hk]
      exact ih h

/-- The mapping `assignOne` builds always sits at the cursor. -/
theorem assignOne_dmx_channel (eid nm : String) (t : EntityType) (c : Nat) :
    (assignOne eid nm t c).1.dmx_channel = c := by
  unfold assignOne
  split_ifs <;> rfl

/-- The mapping `assignOne` builds carries the given id and type. -/
theorem assignOne_fields (eid nm : String) (t : EntityType) (c : Nat) :
    (assignOne eid nm t c).1.entity_id = eid ∧
    (assignOne eid nm t c).1.entity_type = t := by
  unfold assignOne
  split_ifs <;> exact ⟨rfl, rfl⟩

/-- `assignOne` advances the cursor by exactly one (the primary channel)
plus the number of auxiliary channels of the mapping it builds. -/
theorem assignOne_cursor (eid nm : String) (t : EntityType) (c : Nat) :
    (assignOne eid nm t c).2
      = c + 1 + (assignOne eid nm t c).1.rgb_channels.length := by
  unfold assignOne
  split_ifs <;> simp

/-! ### C2 -/

/-- An RGBW mapping configured with only three auxiliary channels. -/
def rgbwShortMapping : EntityMapping :=
  { entity_id := "light.kitchen", entity_type := .RGBW, dmx_channel := 1,
    rgb_channels := [2, 3, 4] }

/-- C2 counterexample: an RGBW device whose auxiliary-channel list has
only 3 entries (fewer than the 4 its type requires) is not skipped — the
translator emits an activate command with an `rgb_color` fallback
payload. -/
theorem c2_counterexample :
    get_entity_commands [("light.kitchen", rgbwShortMapping)]
        [(1, 100), (2, 10), (3, 20), (4, 30)] =
      [{ entity_id := "light.kitchen", action := "turn_on",
         brightness := some 100, rgb_color := some [10, 20, 30] }] ∧
    get_entity_commands [("light.kitchen", rgbwShortMapping)]
        [(1, 100), (2, 10), (3, 20), (4, 30)] ≠ [] := by
  constructor <;> decide

/-- C2 (amended): for a color-type mapping (RGB, RGBW or RGBWW) whose
primary channel is present in the frame, the translator emits no command
at all exactly when fewer than 3 auxiliary channels are configured;
with 3 or more configured channels a command is always emitted, even when
the count is short of what the declared type requires. -/
theorem c2_color_skip_iff_fewer_than_three (mp : EntityMapping)
    (dmx : List (Nat × Nat)) (v : Nat)
    (ht : mp.entity_type = .RGB ∨ mp.entity_type = .RGBW ∨
      mp.entity_type = .RGBWW)
    (hv : dictGet dmx mp.dmx_channel = some v) :
    get_entity_commands [(mp.entity_id, mp)] dmx = [] ↔
      mp.rgb_channels.length < 3 := by
  have hsingle : get_entity_commands [(mp.entity_id, mp)] dmx
      = entity_command dmx mp v := by
    simp [get_entity_commands, commands_go, hv]
  have hcc : entity_command dmx mp v = color_command dmx mp v := by
    rcases ht with h | h | h <;> simp [entity_command, h]
  rw [hsingle, hcc]
  unfold color_command
  by_cases h3 : 3 ≤ mp.rgb_channels.length
  · rw [if_pos h3]
    constructor
    · intro he
      exfalso
      split_ifs at he
    · omega
  · rw [if_neg h3]
    constructor
    · intro _
      omega
    · intro _
      rfl

/-- An RGB mapping configured with only two auxiliary channels. -/
def rgbShortMapping : EntityMapping :=
  { entity_id := "light.a", entity_type := .RGB, dmx_channel := 5,
    rgb_channels := [6, 7] }

/-- C2 witness: `c2_color_skip_iff_fewer_than_three` at a concrete RGB
mapping with two auxiliary channels and its primary channel in the
frame. -/
theorem c2_witness :
    get_entity_commands [(rgbShortMapping.entity_id, rgbShortMapping)]
        [(5, 40)] = [] ↔ rgbShortMapping.rgb_channels.length < 3 :=
  c2_color_skip_iff_fewer_than_three rgbShortMapping [(5, 40)] 40
    (Or.inl rfl) (by decide)

/-! ### C4 -/

/-- A ColorTemperature mapping on primary channel 1. -/
def ctMapping : EntityMapping :=
  { entity_id := "light.ct", entity_type := .COLOR_TEMP, dmx_channel := 1 }

/-- Modelled from the spec: `round(2000 + (value/255)·4500)`, the claimed
kelvin formula, as round-to-nearest (written with a half-unit offset; no
tie occurs for byte values, whose fractional parts are seventeenths). -/
def kelvin_round_spec (v : Nat) : Nat :=
  (2000 * 255 * 2 + v * 4500 * 2 + 255) / (255 * 2)

/-- C4 counterexample: at primary value 1 the code emits
kelvin = 2017 (truncation of 2017.647...), while the claimed rounding
formula yields 2018. -/
theorem c4_counterexample :
    (get_entity_commands [("light.ct", ctMapping)] [(1, 1)]).map
        Command.kelvin = [some 2017] ∧
    kelvin_round_spec 1 = 2018 ∧ (2017 : Nat) ≠ 2018 := by
  refine ⟨by decide, by decide, by decide⟩

/-- C4 (amended): a ColorTemperature mapping whose primary value `v` is
present yields deactivate with no kelvin field when `v = 0`, and activate
with brightness `v` and kelvin `2000 + ⌊v·4500/255⌋` (the float
computation truncated by `int(...)`, not rounded) when `v > 0`; at
`v = 255` the kelvin value is 6500. -/
theorem c4_color_temp_commands (mp : EntityMapping) (dmx : List (Nat × Nat))
    (v : Nat) (ht : mp.entity_type = .COLOR_TEMP)
    (hv : dictGet dmx mp.dmx_channel = some v) (hb : v ≤ 255) :
    (v = 0 → get_entity_commands [(mp.entity_id, mp)] dmx =
      [{ entity_id := mp.entity_id, action := "turn_off" }]) ∧
    (0 < v → get_entity_commands [(mp.entity_id, mp)] dmx =
      [{ entity_id := mp.entity_id, action := "turn_on",
         brightness := some v, kelvin := some (2000 + v * 4500 / 255) }]) ∧
    kelvin_of 255 = 6500 := by
  have hsingle : get_entity_commands [(mp.entity_id, mp)] dmx
      = entity_command dmx mp v := by
    simp [get_entity_commands, commands_go, hv]
  refine ⟨?_, ?_, by decide⟩
  · intro h0
    subst h0
    simp [hsingle, entity_command, ht, dmx_to_ha_brightness]
  · intro hpos
    simp [hsingle, entity_command, ht, dmx_to_ha_brightness, hpos, kelvin_of]

/-- C4 witness: `c4_color_temp_commands` at the concrete ColorTemperature
mapping with primary value 128. -/
theorem c4_witness :
    ((128 : Nat) = 0 →
      get_entity_commands [(ctMapping.entity_id, ctMapping)] [(1, 128)] =
        [{ entity_id := ctMapping.entity_id, action := "turn_off" }]) ∧
    ((0 : Nat) < 128 →
      get_entity_commands [(ctMapping.entity_id, ctMapping)] [(1, 128)] =
        [{ entity_id := ctMapping.entity_id, action := "turn_on",
           brightness := some 128,
           kelvin := some (2000 + 128 * 4500 / 255) }]) ∧
    kelvin_of 255 = 6500 :=
  c4_color_temp_commands ctMapping [(1, 128)] 128 rfl (by decide) (by decide)

/-! ### C5 -/

/-- C5 counterexample: the assignment branch gives a device of type RGBWW
no auxiliary channels and advances the cursor by 1 (from 10 to 11), not
by 6 (to 16) with 5 auxiliary channels as claimed. -/
theorem c5_counterexample :
    (assignOne "light.x" "x" .RGBWW 10).1.rgb_channels = [] ∧
    (assignOne "light.x" "x" .RGBWW 10).2 = 11 ∧
    ¬ ((assignOne "light.x" "x" .RGBWW 10).1.rgb_channels.length = 5 ∧
       (assignOne "light.x" "x" .RGBWW 10).2 = 16) := by
  refine ⟨by decide, by decide, by decide⟩

/-- C5 (amended): a newly assigned RGBW device receives its primary
channel plus 4 contiguous auxiliary channels with the cursor advancing by
exactly 5; RGBWW has no branch of its own in auto-assignment — it falls
to the default branch, receiving the primary channel only, no auxiliary
channels, and a cursor advance of 1 — and type detection never produces
RGBWW, so no device of that type is ever auto-assigned. -/
theorem c5_rgbw_rgbww_assignment :
    (∀ (eid nm : String) (c : Nat),
      assignOne eid nm .RGBW c =
        ({ entity_id := eid, entity_type := .RGBW, dmx_channel := c,
           name := nm,
           rgb_channels := [c + 1, c + 2, c + 3, c + 4] },
         c + 5)) ∧
    (∀ (eid nm : String) (c : Nat),
      assignOne eid nm .RGBWW c =
        ({ entity_id := eid, entity_type := .RGBWW, dmx_channel := c,
           name := nm, rgb_channels := [] }, c + 1)) ∧
    ∀ s : EntityState, detect_entity_type s ≠ .RGBWW := by
  refine ⟨fun eid nm c => rfl, fun eid nm c => rfl, ?_⟩
  intro s
  unfold detect_entity_type
  split_ifs <;> decide

/-! ### C6 -/

/-- C6 counterexample: creating a mapping for an unmapped device with the
RGB type yields no auxiliary channels at all, not the contiguous three the
claim requires. -/
theorem c6_counterexample :
    dictGet (update_mapping [] "light.n" 10 (some .RGB)) "light.n" =
      some { entity_id := "light.n", entity_type := .RGB, dmx_channel := 10,
             name := "", rgb_channels := [] } ∧
    (dictGet (update_mapping [] "light.n" 10 (some .RGB)) "light.n").map
        EntityMapping.rgb_channels ≠ some [11, 12, 13] := by
  constructor <;> decide

/-- C6 (amended): `update_mapping` on a device id absent from the table
always creates a mapping with the given primary channel, the supplied
type (Unknown when none is supplied), and no auxiliary channels —
regardless of whether the type requires auxiliary channels. -/
theorem c6_new_mapping_no_aux (m : Mappings) (eid : String) (ch : Nat)
    (t : Option EntityType) (h : dictGet m eid = none) :
    dictGet (update_mapping m eid ch t) eid =
      some { entity_id := eid, entity_type := t.getD .UNKNOWN,
             dmx_channel := ch, name := "", rgb_channels := [] } := by
  unfold update_mapping
  rw [h, dictGet_append_of_none _ _ _ h]
  simp [dictGet]

/-- C6 witness: `c6_new_mapping_no_aux` on the empty table with no type
supplied. -/
theorem c6_witness :
    dictGet (update_mapping [] "switch.w" 3 none) "switch.w" =
      some { entity_id := "switch.w",
             entity_type := (none : Option EntityType).getD .UNKNOWN,
             dmx_channel := 3, name := "", rgb_channels := [] } :=
  c6_new_mapping_no_aux [] "switch.w" 3 none (by decide)

/-! ### C8 -/

/-- Auto-assignment never touches a binding that is already present: the
looked-up mapping of a mapped device is unchanged by any pass. -/
theorem auto_assign_preserves (es : List EntityState) (m : Mappings)
    (c : Nat) (eid : String) (mp : EntityMapping)
    (h : dictGet m eid = some mp) :
    dictGet (auto_assign_channels m es c) eid = some mp := by
  induction es generalizing m c with
  | nil => exact h
  | cons e rest ih =>
    unfold auto_assign_channels
    by_cases he : (dictGet m e.entity_id).isSome
    · rw [if_pos he]
      exact ih _ _ h
    · rw [if_neg he]
      refine ih _ _ ?_
      rw [dictGet_append_of_isSome _ _ _ (by simp [h])]
      exact h

/-- After a pass, every discovered entity id is bound in the table. -/
theorem auto_assign_mem_isSome (es : List EntityState) (m : Mappings)
    (c : Nat) (e : EntityState) (he : e ∈ es) :
    (dictGet (auto_assign_channels m es c) e.entity_id).isSome := by
  induction es generalizing m c with
  | nil => cases he
  | cons e0 rest ih =>
    unfold auto_assign_channels
    by_cases h0 : (dictGet m e0.entity_id).isSome
    · rw [if_pos h0]
      rcases List.mem_cons.mp he with rfl | hmem
      · obtain ⟨mp, hmp⟩ := Option.isSome_iff_exists.mp h0
        rw [auto_assign_preserves rest m c _ mp hmp]
        rfl
      · exact ih _ _ hmem
    · rw [if_neg h0]
      rcases List.mem_cons.mp he with rfl | hmem
      · have hnone : dictGet m e.entity_id = none :=
          Option.not_isSome_iff_eq_none.mp h0
        have hadd : dictGet
            (m ++ [(e.entity_id,
              (assignOne e.entity_id (e.friendly_name.getD e.entity_id)
                (detect_entity_type e) c).1)]) e.entity_id =
            some (assignOne e.entity_id (e.friendly_name.getD e.entity_id)
              (detect_entity_type e) c).1 := by
          rw [dictGet_append_of_none _ _ _ hnone]
          simp [dictGet]
        rw [auto_assign_preserves rest _ _ _ _ hadd]
        rfl
      · exact ih _ _ hmem

/-- A pass over entities that are all already bound returns the table
unchanged. -/
theorem auto_assign_of_all_present (es : List EntityState) (m : Mappings)
    (c : Nat) (h : ∀ e ∈ es, (dictGet m e.entity_id).isSome) :
    auto_assign_channels m es c = m := by
  induction es generalizing c with
  | nil => rfl
  | cons e rest ih =>
    unfold auto_assign_channels
    rw [if_pos (h e (by simp))]
    exact ih _ fun e2 he2 => h e2 (List.mem_cons_of_mem e he2)

/-- C8: auto-assignment never overwrites an existing mapping — a device
already bound in the table keeps exactly its mapping (type, primary and
auxiliary channels) through any pass — and a second pass with the same
discovered list (any start channel) returns the table of the first pass
unchanged. -/
theorem c8_auto_assign_idempotent :
    (∀ (m : Mappings) (es : List EntityState) (c : Nat) (eid : String)
        (mp : EntityMapping), dictGet m eid = some mp →
      dictGet (auto_assign_channels m es c) eid = some mp) ∧
    ∀ (m : Mappings) (es : List EntityState) (c c2 : Nat),
      auto_assign_channels (auto_assign_channels m es c) es c2
        = auto_assign_channels m es c := by
  refine ⟨fun m es c eid mp h => auto_assign_preserves es m c eid mp h, ?_⟩
  intro m es c c2
  exact auto_assign_of_all_present es _ c2
    (fun e he => auto_assign_mem_isSome es m c e he)

/-! ### C9 -/

/-- Every device newly bound during a pass gets a primary channel at or
beyond the pass's starting cursor. -/
theorem auto_assign_new_channel_lb (es : List EntityState) (m : Mappings)
    (c : Nat) (eid : String) (mp : EntityMapping)
    (hnone : dictGet m eid = none)
    (hsome : dictGet (auto_assign_channels m es c) eid = some mp) :
    c ≤ mp.dmx_channel := by
  induction es generalizing m c with
  | nil =>
    unfold auto_assign_channels at hsome
    rw [hnone] at hsome
    cases hsome
  | cons e rest ih =>
    unfold auto_assign_channels at hsome
    by_cases h0 : (dictGet m e.entity_id).isSome
    · rw [if_pos h0] at hsome
      exact ih _ _ hnone hsome
    · rw [if_neg h0] at hsome
      by_cases heq : e.entity_id = eid
      · subst heq
        have hnone0 : dictGet m e.entity_id = none :=
          Option.not_isSome_iff_eq_none.mp h0
        have hadd : dictGet
            (m ++ [(e.entity_id,
              (assignOne e.entity_id (e.friendly_name.getD e.entity_id)
                (detect_entity_type e) c).1)]) e.entity_id =
            some (assignOne e.entity_id (e.friendly_name.getD e.entity_id)
              (detect_entity_type e) c).1 := by
          rw [dictGet_append_of_none _ _ _ hnone0]
          simp [dictGet]
        rw [auto_assign_preserves rest _ _ _ _ hadd] at hsome
        injection hsome with hsome
        rw [← hsome, assignOne_dmx_channel]
      · have hnone2 : dictGet
            (m ++ [(e.entity_id,
              (assignOne e.entity_id (e.friendly_name.getD e.entity_id)
                (detect_entity_type e) c).1)]) eid = none := by
          rw [dictGet_append_of_none _ _ _ hnone]
          simp [dictGet, heq]
        have hle := ih _ _ hnone2 hsome
        have hcur := assignOne_cursor e.entity_id
          (e.friendly_name.getD e.entity_id) (detect_entity_type e) c
        omega

/-- C9: two distinct devices both newly assigned in the same
auto-assignment pass occupy disjoint channel ranges
`[primary, primary + auxiliary_count]`. -/
theorem c9_new_assignments_disjoint (m : Mappings) (es : List EntityState)
    (c : Nat) (i j : String) (mpi mpj : EntityMapping)
    (hi0 : dictGet m i = none) (hj0 : dictGet m j = none) (hij : i ≠ j)
    (hi : dictGet (auto_assign_channels m es c) i = some mpi)
    (hj : dictGet (auto_assign_channels m es c) j = some mpj) :
    mpi.dmx_channel + mpi.rgb_channels.length < mpj.dmx_channel ∨
    mpj.dmx_channel + mpj.rgb_channels.length < mpi.dmx_channel := by
  induction es generalizing m c with
  | nil =>
    unfold auto_assign_channels at hi
    rw [hi0] at hi
    cases hi
  | cons e rest ih =>
    unfold auto_assign_channels at hi hj
    by_cases h0 : (dictGet m e.entity_id).isSome
    · rw [if_pos h0] at hi hj
      exact ih _ _ hi0 hj0 hi hj
    · rw [if_neg h0] at hi hj
      have hnone0 : dictGet m e.entity_id = none :=
        Option.not_isSome_iff_eq_none.mp h0
      by_cases hei : e.entity_id = i
      · subst hei
        have hadd : dictGet
            (m ++ [(e.entity_id,
              (assignOne e.entity_id (e.friendly_name.getD e.entity_id)
                (detect_entity_type e) c).1)]) e.entity_id =
            some (assignOne e.entity_id (e.friendly_name.getD e.entity_id)
              (detect_entity_type e) c).1 := by
          rw [dictGet_append_of_none _ _ _ hnone0]
          simp [dictGet]
        rw [auto_assign_preserves rest _ _ _ _ hadd] at hi
        injection hi with hi
        have hj2 : dictGet
            (m ++ [(e.entity_id,
              (assignOne e.entity_id (e.friendly_name.getD e.entity_id)
                (detect_entity_type e) c).1)]) j = none := by
          rw [dictGet_append_of_none _ _ _ hj0]
          simp [dictGet, hij]
        have hjlb := auto_assign_new_channel_lb rest _ _ _ _ hj2 hj
        have hcur := assignOne_cursor e.entity_id
          (e.friendly_name.getD e.entity_id) (detect_entity_type e) c
        have hch := assignOne_dmx_channel e.entity_id
          (e.friendly_name.getD e.entity_id) (detect_entity_type e) c
        rw [← hi] at *
        omega
      · by_cases hej : e.entity_id = j
        · subst hej
          have hadd : dictGet
              (m ++ [(e.entity_id,
                (assignOne e.entity_id (e.friendly_name.getD e.entity_id)
                  (detect_entity_type e) c).1)]) e.entity_id =
              some (assignOne e.entity_id (e.friendly_name.getD e.entity_id)
                (detect_entity_type e) c).1 := by
            rw [dictGet_append_of_none _ _ _ hnone0]
            simp [dictGet]
          rw [auto_assign_preserves rest _ _ _ _ hadd] at hj
          injection hj with hj
          have hi2 : dictGet
              (m ++ [(e.entity_id,
                (assignOne e.entity_id (e.friendly_name.getD e.entity_id)
                  (detect_entity_type e) c).1)]) i = none := by
            rw [dictGet_append_of_none _ _ _ hi0]
            simp [dictGet, hei]
          have hilb := auto_assign_new_channel_lb rest _ _ _ _ hi2 hi
          have hcur := assignOne_cursor e.entity_id
            (e.friendly_name.getD e.entity_id) (detect_entity_type e) c
          have hch := assignOne_dmx_channel e.entity_id
            (e.friendly_name.getD e.entity_id) (detect_entity_type e) c
          rw [← hj] at *
          omega
        · have hi2 : dictGet
              (m ++ [(e.entity_id,
                (assignOne e.entity_id (e.friendly_name.getD e.entity_id)
                  (detect_entity_type e) c).1)]) i = none := by
            rw [dictGet_append_of_none _ _ _ hi0]
            simp [dictGet, hei]
          have hj2 : dictGet
              (m ++ [(e.entity_id,
                (assignOne e.entity_id (e.friendly_name.getD e.entity_id)
                  (detect_entity_type e) c).1)]) j = none := by
            rw [dictGet_append_of_none _ _ _ hj0]
            simp [dictGet, hej]
          exact ih _ _ hi2 hj2 hi hj

/-- A discovered switch-domain entity. -/
def stateSwitchA : EntityState := ⟨"switch.a", [], false, none⟩

/-- A discovered rgb-capable light entity. -/
def stateLightB : EntityState := ⟨"light.b", ["rgb"], false, none⟩

/-- The mapping the pass assigns to `stateSwitchA` from cursor 1. -/
def mpSwitchA : EntityMapping :=
  { entity_id := "switch.a", entity_type := .SWITCH, dmx_channel := 1,
    name := "switch.a", rgb_channels := [] }

/-- The mapping the pass assigns to `stateLightB` next (cursor 2). -/
def mpLightB : EntityMapping :=
  { entity_id := "light.b", entity_type := .RGB, dmx_channel := 2,
    name := "light.b", rgb_channels := [3, 4, 5] }

/-- C9 witness: `c9_new_assignments_disjoint` on a concrete pass
assigning a switch and an RGB light from the empty table. -/
theorem c9_witness :
    mpSwitchA.dmx_channel + mpSwitchA.rgb_channels.length
        < mpLightB.dmx_channel ∨
    mpLightB.dmx_channel + mpLightB.rgb_channels.length
        < mpSwitchA.dmx_channel :=
  c9_new_assignments_disjoint [] [stateSwitchA, stateLightB] 1 "switch.a"
    "light.b" mpSwitchA mpLightB (by decide) (by decide) (by decide)
    (by decide) (by decide)

/-! ### C7 -/

/-- C7: one dispatch-loop iteration suppresses a command exactly when
less than the 50 ms minimum interval has elapsed between the stored
per-device timestamp (default 0) and the pass-captured time; the
timestamp table is updated exactly when the command is actually sent
(unchanged on suppression and on dispatch failure); and for a device
whose stored timestamp is `t`, a command 20 ms later (`t + 1/50` s) is
suppressed while a command 60 ms later (`t + 3/50` s) is sent and stamps
the new time. -/
theorem c7_throttle_50ms :
    (∀ (ok : Bool) (now : ℚ) (lt : List (String × ℚ)) (eid : String),
      (process_command ok now lt eid).1 = .suppressed ↔
        now - (dictGet lt eid).getD 0 < min_command_interval) ∧
    (∀ (ok : Bool) (now : ℚ) (lt : List (String × ℚ)) (eid : String),
      (process_command ok now lt eid).2 =
        if (process_command ok now lt eid).1 = .sent then dictSet lt eid now
        else lt) ∧
    (∀ t : ℚ, process_command true (t + 1/50) [("dev", t)] "dev"
        = (.suppressed, [("dev", t)])) ∧
    (∀ t : ℚ, process_command true (t + 3/50) [("dev", t)] "dev"
        = (.sent, [("dev", t + 3/50)])) := by
  refine ⟨?_, ?_, ?_, ?_⟩
  · intro ok now lt eid
    unfold process_command
    split_ifs with h1 h2 <;> simp [h1]
  · intro ok now lt eid
    unfold process_command
    split_ifs <;> simp_all
  · intro t
    simp [process_command, dictGet]
    norm_num [min_command_interval]
  · intro t
    simp [process_command, dictGet, dictSet]
    norm_num [min_command_interval]

end ArtnetHA
